import Mathlib

/-!
Verification of the conversation-orchestration loop and vehicle-profile
tooling of the voice call-center assistant (`backend/agent.py`,
`backend/api.py`, `backend/db_driver.py`, `backend/llm.py`).

The Python code is shallowly embedded: strings are Lean `String`s over
their `List Char` data, the sqlite `cars` table is a list of rows in
insertion order, and the streaming model-response loop of
`agent.py::entrypoint` becomes a recursive function over the list of
chunks each model round produced.
-/

namespace CallCentre

/-! ## ASCII models of the Python `str` methods used by the code

`str.strip()`, `str.upper()`, `str.lower()` and `str.title()` are modelled
for ASCII text, character by character, using core `Char.toUpper` /
`Char.toLower` (which act exactly on `a`-`z` / `A`-`Z`). -/

/-- Whitespace recognised by Python `str.strip()` (ASCII range):
space, tab, newline, carriage return, vertical tab, form feed. -/
def isSpaceB (c : Char) : Bool :=
  decide (c.toNat = 32 ∨ c.toNat = 9 ∨ c.toNat = 10 ∨ c.toNat = 13 ∨
          c.toNat = 11 ∨ c.toNat = 12)

/-- ASCII letter. -/
def isAlphaB (c : Char) : Bool :=
  decide ((65 ≤ c.toNat ∧ c.toNat ≤ 90) ∨ (97 ≤ c.toNat ∧ c.toNat ≤ 122))

/-- ASCII lowercase letter. -/
def isLowerB (c : Char) : Bool :=
  decide (97 ≤ c.toNat ∧ c.toNat ≤ 122)

/-- `s.strip()` on the character list: drop whitespace from both ends. -/
def pyStripL (l : List Char) : List Char :=
  (l.dropWhile isSpaceB).rdropWhile isSpaceB

/-- Python `s.strip()`. -/
def pyStrip (s : String) : String := ⟨pyStripL s.data⟩

/-- Python `s.upper()` (ASCII). -/
def pyUpper (s : String) : String := ⟨s.data.map Char.toUpper⟩

/-- Python `s.lower()` (ASCII). -/
def pyLower (s : String) : String := ⟨s.data.map Char.toLower⟩

/-- Python `s.title()` on the character list: a cased character is
uppercased when the previous character is not a letter and lowercased
otherwise.  The flag carries whether the previous character was a letter. -/
def titleChars : Bool → List Char → List Char
  | _, [] => []
  | prevAlpha, c :: rest =>
    (if prevAlpha then Char.toLower c else Char.toUpper c) ::
      titleChars (isAlphaB c) rest

/-- Python `s.title()` (ASCII). -/
def pyTitle (s : String) : String := ⟨titleChars false s.data⟩

/-- `vin.strip().upper()`, the VIN normalisation used throughout
`api.py` and `db_driver.py`. -/
def normVin (s : String) : String := pyUpper (pyStrip s)

/-- `x.strip().title()`, the make/model normalisation used by
`api.py::create_car` and `db_driver.py::create_car`. -/
def normName (s : String) : String := pyTitle (pyStrip s)

/-! ### Character-level facts about the case mappings -/

theorem char_toNat_ofNat_valid {n : Nat} (h : n < 55296) :
    (Char.ofNat n).toNat = n := by
  rw [Char.ofNat, dif_pos (Or.inl h)]
  rfl

theorem toUpper_toNat_of_lower {c : Char}
    (h : 97 ≤ c.toNat ∧ c.toNat ≤ 122) :
    (Char.toUpper c).toNat = c.toNat - 32 := by
  have hv : c.toNat - 32 < 55296 := by omega
  simp only [Char.toUpper]
  rw [if_pos ⟨h.1, h.2⟩]
  exact char_toNat_ofNat_valid hv

theorem toUpper_eq_self {c : Char}
    (h : ¬(97 ≤ c.toNat ∧ c.toNat ≤ 122)) :
    Char.toUpper c = c := by
  simp only [Char.toUpper]
  rw [if_neg]
  exact fun hc => h ⟨hc.1, hc.2⟩

theorem toLower_toNat_of_upper {c : Char}
    (h : 65 ≤ c.toNat ∧ c.toNat ≤ 90) :
    (Char.toLower c).toNat = c.toNat + 32 := by
  have hv : c.toNat + 32 < 55296 := by omega
  simp only [Char.toLower]
  rw [if_pos ⟨h.1, h.2⟩]
  exact char_toNat_ofNat_valid hv

theorem toLower_eq_self {c : Char}
    (h : ¬(65 ≤ c.toNat ∧ c.toNat ≤ 90)) :
    Char.toLower c = c := by
  simp only [Char.toLower]
  rw [if_neg]
  exact fun hc => h ⟨hc.1, hc.2⟩

theorem toUpper_idem (c : Char) :
    Char.toUpper (Char.toUpper c) = Char.toUpper c := by
  by_cases h : 97 ≤ c.toNat ∧ c.toNat ≤ 122
  · have h1 := toUpper_toNat_of_lower h
    exact toUpper_eq_self (by omega)
  · rw [toUpper_eq_self h, toUpper_eq_self h]

theorem toLower_idem (c : Char) :
    Char.toLower (Char.toLower c) = Char.toLower c := by
  by_cases h : 65 ≤ c.toNat ∧ c.toNat ≤ 90
  · have h1 := toLower_toNat_of_upper h
    exact toLower_eq_self (by omega)
  · rw [toLower_eq_self h, toLower_eq_self h]

theorem isSpaceB_toUpper (c : Char) : isSpaceB (Char.toUpper c) = isSpaceB c := by
  by_cases h : 97 ≤ c.toNat ∧ c.toNat ≤ 122
  · have h1 := toUpper_toNat_of_lower h
    simp only [isSpaceB]
    exact decide_eq_decide.mpr (by omega)
  · rw [toUpper_eq_self h]

theorem isSpaceB_toLower (c : Char) : isSpaceB (Char.toLower c) = isSpaceB c := by
  by_cases h : 65 ≤ c.toNat ∧ c.toNat ≤ 90
  · have h1 := toLower_toNat_of_upper h
    simp only [isSpaceB]
    exact decide_eq_decide.mpr (by omega)
  · rw [toLower_eq_self h]

theorem isAlphaB_toUpper (c : Char) : isAlphaB (Char.toUpper c) = isAlphaB c := by
  by_cases h : 97 ≤ c.toNat ∧ c.toNat ≤ 122
  · have h1 := toUpper_toNat_of_lower h
    simp only [isAlphaB]
    exact decide_eq_decide.mpr (by omega)
  · rw [toUpper_eq_self h]

theorem isAlphaB_toLower (c : Char) : isAlphaB (Char.toLower c) = isAlphaB c := by
  by_cases h : 65 ≤ c.toNat ∧ c.toNat ≤ 90
  · have h1 := toLower_toNat_of_upper h
    simp only [isAlphaB]
    exact decide_eq_decide.mpr (by omega)
  · rw [toLower_eq_self h]

theorem isLowerB_toUpper (c : Char) : isLowerB (Char.toUpper c) = false := by
  by_cases h : 97 ≤ c.toNat ∧ c.toNat ≤ 122
  · have h1 := toUpper_toNat_of_lower h
    simp only [isLowerB]
    exact decide_eq_false (by omega)
  · rw [toUpper_eq_self h]
    simp only [isLowerB]
    exact decide_eq_false h

/-! ### List-level facts about `strip`, `upper`, `title` -/

theorem dropWhile_head_false {p : α → Bool} {a : α} {l : List α}
    (h : List.dropWhile p (a :: l) = a :: l) : p a = false := by
  by_contra hp
  have hpa : p a = true := by
    cases hpa : p a
    · exact absurd hpa hp
    · rfl
  have h2 : List.dropWhile p (a :: l) = List.dropWhile p l := by
    simp [List.dropWhile_cons, hpa]
  have h3 := (List.dropWhile_sublist (l := l) p).length_le
  rw [h2] at h
  have h4 := congrArg List.length h
  simp at h4
  omega

theorem dropWhile_of_prefix_self {p : α → Bool} {n t : List α}
    (h : List.dropWhile p (n ++ t) = n ++ t) : List.dropWhile p n = n := by
  cases n with
  | nil => rfl
  | cons a n' =>
    have hpa : p a = false := dropWhile_head_false (l := n' ++ t) h
    simp [List.dropWhile_cons, hpa]

theorem pyStripL_dropWhile (l : List Char) :
    List.dropWhile isSpaceB (pyStripL l) = pyStripL l := by
  unfold pyStripL
  have hpre := List.rdropWhile_prefix isSpaceB (l.dropWhile isSpaceB)
  obtain ⟨t, ht⟩ := hpre
  have hm : List.dropWhile isSpaceB
      ((l.dropWhile isSpaceB).rdropWhile isSpaceB ++ t)
      = (l.dropWhile isSpaceB).rdropWhile isSpaceB ++ t := by
    rw [ht]
    exact List.dropWhile_idempotent _ _
  exact dropWhile_of_prefix_self hm

theorem pyStripL_idem (l : List Char) : pyStripL (pyStripL l) = pyStripL l := by
  show ((pyStripL l).dropWhile isSpaceB).rdropWhile isSpaceB = pyStripL l
  rw [pyStripL_dropWhile]
  show ((l.dropWhile isSpaceB).rdropWhile isSpaceB).rdropWhile isSpaceB
      = (l.dropWhile isSpaceB).rdropWhile isSpaceB
  exact List.rdropWhile_idempotent _ _

theorem map_toUpper_comm_dropWhile (l : List Char) :
    List.dropWhile isSpaceB (l.map Char.toUpper)
      = (List.dropWhile isSpaceB l).map Char.toUpper := by
  have hfun : (isSpaceB ∘ Char.toUpper) = isSpaceB := funext isSpaceB_toUpper
  rw [List.dropWhile_map, hfun]

theorem map_toUpper_comm_rdropWhile (l : List Char) :
    List.rdropWhile isSpaceB (l.map Char.toUpper)
      = (List.rdropWhile isSpaceB l).map Char.toUpper := by
  unfold List.rdropWhile
  rw [← List.map_reverse, map_toUpper_comm_dropWhile, List.map_reverse]

theorem pyStripL_map_toUpper (l : List Char) :
    pyStripL (l.map Char.toUpper) = (pyStripL l).map Char.toUpper := by
  unfold pyStripL
  rw [map_toUpper_comm_dropWhile, map_toUpper_comm_rdropWhile]

theorem map_toUpper_idem (l : List Char) :
    (l.map Char.toUpper).map Char.toUpper = l.map Char.toUpper := by
  rw [List.map_map]
  exact List.map_congr_left (fun c _ => toUpper_idem c)

theorem normVin_idem (s : String) : normVin (normVin s) = normVin s := by
  unfold normVin pyUpper pyStrip
  apply String.ext
  show (pyStripL ((pyStripL s.data).map Char.toUpper)).map Char.toUpper
      = (pyStripL s.data).map Char.toUpper
  rw [pyStripL_map_toUpper, pyStripL_idem, map_toUpper_idem]

theorem titleChars_spaces (l : List Char) :
    ∀ b, (titleChars b l).map isSpaceB = l.map isSpaceB := by
  induction l with
  | nil => intro b; rfl
  | cons c rest ih =>
    intro b
    cases b <;>
      simp [titleChars, isSpaceB_toUpper, isSpaceB_toLower, ih (isAlphaB c)]

theorem titleChars_idem (l : List Char) :
    ∀ b, titleChars b (titleChars b l) = titleChars b l := by
  induction l with
  | nil => intro b; rfl
  | cons c rest ih =>
    intro b
    cases b with
    | false =>
      simp [titleChars, toUpper_idem, isAlphaB_toUpper, ih (isAlphaB c)]
    | true =>
      simp [titleChars, toLower_idem, isAlphaB_toLower, ih (isAlphaB c)]

theorem dropWhile_titleChars_of_self {l : List Char}
    (h : List.dropWhile isSpaceB l = l) :
    List.dropWhile isSpaceB (titleChars false l) = titleChars false l := by
  cases l with
  | nil => rfl
  | cons c rest =>
    have hc : isSpaceB c = false := dropWhile_head_false h
    have hc2 : isSpaceB (Char.toUpper c) = false := by
      rw [isSpaceB_toUpper]; exact hc
    simp [titleChars, List.dropWhile_cons, hc2]

theorem rdropWhile_titleChars_of_self {l : List Char}
    (h : List.rdropWhile isSpaceB l = l) :
    List.rdropWhile isSpaceB (titleChars false l) = titleChars false l := by
  rw [List.rdropWhile_eq_self_iff]
  intro hne
  have hlne : l ≠ [] := by
    intro hl
    apply hne
    rw [hl]
    rfl
  have hlast : ∀ hl : l ≠ [], ¬isSpaceB (l.getLast hl) = true :=
    List.rdropWhile_eq_self_iff.mp h
  have hmap := titleChars_spaces l false
  have h1 : (titleChars false l).getLast?.map isSpaceB = l.getLast?.map isSpaceB := by
    rw [← List.getLast?_map, ← List.getLast?_map, hmap]
  rw [List.getLast?_eq_getLast _ hne, List.getLast?_eq_getLast _ hlne] at h1
  simp only [Option.map_some'] at h1
  have h2 : isSpaceB ((titleChars false l).getLast hne) = isSpaceB (l.getLast hlne) :=
    Option.some.inj h1
  rw [h2]
  exact hlast hlne

theorem normName_idem (s : String) : normName (normName s) = normName s := by
  unfold normName pyTitle pyStrip
  apply String.ext
  show titleChars false (pyStripL (titleChars false (pyStripL s.data)))
      = titleChars false (pyStripL s.data)
  have hd : List.dropWhile isSpaceB (pyStripL s.data) = pyStripL s.data :=
    pyStripL_dropWhile s.data
  have hr : List.rdropWhile isSpaceB (pyStripL s.data) = pyStripL s.data := by
    show List.rdropWhile isSpaceB ((s.data.dropWhile isSpaceB).rdropWhile isSpaceB)
        = (s.data.dropWhile isSpaceB).rdropWhile isSpaceB
    exact List.rdropWhile_idempotent _ _
  have h1 : pyStripL (titleChars false (pyStripL s.data))
      = titleChars false (pyStripL s.data) := by
    show ((titleChars false (pyStripL s.data)).dropWhile isSpaceB).rdropWhile isSpaceB
        = titleChars false (pyStripL s.data)
    rw [dropWhile_titleChars_of_self hd, rdropWhile_titleChars_of_self hr]
  rw [h1]
  exact titleChars_idem _ false

/-- `upper` applied to an already-normalised VIN is the identity:
needed because `db_driver.py` re-normalises what `api.py` already
normalised. -/
theorem pyUpper_normVin (s : String) : pyUpper (normVin s) = normVin s := by
  unfold normVin pyUpper pyStrip
  apply String.ext
  show ((pyStripL s.data).map Char.toUpper).map Char.toUpper
      = (pyStripL s.data).map Char.toUpper
  exact map_toUpper_idem _

theorem normVin_length_eq (s : String) :
    (normVin (normVin s)).length = (normVin s).length := by
  rw [normVin_idem]

/-! ## `db_driver.py` — the `cars` table

The sqlite table is modelled as the list of its rows in insertion order.
`create_car` re-normalises its inputs and the `INSERT` is subject to the
schema constraints (`vin TEXT PRIMARY KEY CHECK(length(vin) = 17)`,
non-empty make/model, `year` in `[1900, 2030]`); any violated constraint
raises `sqlite3.IntegrityError`, which the driver catches and turns into
`None`, leaving the table unchanged. -/

/-- One row of the `cars` table (`db_driver.py::Car`). -/
structure Car where
  vin : String
  make : String
  model : String
  year : Int
  deriving DecidableEq, Repr

/-- `DatabaseDriver.get_car_by_vin`: normalise the key, then
`SELECT ... WHERE vin = ?`. -/
def get_car_by_vin (db : List Car) (vin : String) : Option Car :=
  let v := normVin vin
  db.find? (fun c => c.vin == v)

/-- `DatabaseDriver.create_car`: normalise, `INSERT`; returns the table
after the call together with the created row (`none` when an
`IntegrityError` — duplicate primary key or violated `CHECK` — was
caught). -/
def db_create_car (db : List Car) (vin make model : String) (year : Int) :
    List Car × Option Car :=
  let v := normVin vin
  let mk := normName make
  let md := normName model
  if (db.find? (fun c => c.vin == v)).isSome then
    (db, none)
  else if v.length = 17 ∧ 0 < mk.length ∧ 0 < md.length ∧
      1900 ≤ year ∧ year ≤ 2030 then
    (db ++ [⟨v, mk, md, year⟩], some ⟨v, mk, md, year⟩)
  else
    (db, none)

/-! ## `api.py` — the `AssistantFnc` tool handlers

`AssistantFnc._car_details` is a fixed-shape dict holding the active
profile; every value is a string (`year` is stored via `str(result.year)`)
and all four are `""` when no profile is loaded. -/

/-- The `_car_details` dict of `AssistantFnc`. -/
structure CarDetailsFields where
  vin : String
  make : String
  model : String
  year : String
  deriving DecidableEq, Repr

/-- `AssistantFnc.__init__`: all fields empty. -/
def emptyCarDetails : CarDetailsFields := ⟨"", "", "", ""⟩

/-- `AssistantFnc.has_car`. -/
def has_car (d : CarDetailsFields) : Bool := d.vin != ""

/-- `AssistantFnc.get_car_str`: format non-empty fields, one per line. -/
def get_car_str (d : CarDetailsFields) : String :=
  if has_car d = false then "No car profile found"
  else
    let car_info :=
      (if d.vin != "" then ["Vin: " ++ d.vin] else []) ++
      (if d.make != "" then ["Make: " ++ d.make] else []) ++
      (if d.model != "" then ["Model: " ++ d.model] else []) ++
      (if d.year != "" then ["Year: " ++ d.year] else [])
    if car_info.isEmpty then "No car details available"
    else String.intercalate "\n" car_info

/-- Result of `AssistantFnc.lookup_car`: the `_car_details` dict after the
call, the returned string, and whether the control path reached the
`DB.get_car_by_vin` query. -/
structure LookupOutcome where
  details : CarDetailsFields
  reply : String
  queriedStore : Bool
  deriving DecidableEq, Repr

/-- `AssistantFnc.lookup_car`. -/
def lookup_car (db : List Car) (d : CarDetailsFields) (vin : String) :
    LookupOutcome :=
  let v := normVin vin
  if v.length ≠ 17 then
    ⟨d, "Invalid VIN format. VIN should be 17 characters long. You provided: "
        ++ toString v.length ++ " characters.", false⟩
  else
    match get_car_by_vin db v with
    | none =>
      ⟨d, "No car found with VIN: " ++ v ++
          ". Would you like me to help you create a new profile?", true⟩
    | some r =>
      let d2 : CarDetailsFields := ⟨r.vin, r.make, r.model, toString r.year⟩
      ⟨d2, "Great! I found your vehicle:\n" ++ get_car_str d2 ++
          "\n\nHow can I help you with your " ++ toString r.year ++ " " ++
          r.make ++ " " ++ r.model ++ " today?", true⟩

/-- `AssistantFnc.get_car_details`. -/
def get_car_details (d : CarDetailsFields) : String :=
  if has_car d = false then
    "No car profile is currently loaded. Please provide your VIN or create a new profile."
  else "Current vehicle details:\n" ++ get_car_str d

/-- Result of `AssistantFnc.create_car`: table and `_car_details` after the
call, plus the returned string. -/
structure CreateOutcome where
  db : List Car
  details : CarDetailsFields
  reply : String
  deriving DecidableEq, Repr

/-- `AssistantFnc.create_car` (the well-typed body; the `try/except`
wrapper for ill-typed arguments is `create_car_wrapped` below). -/
def create_car (db : List Car) (d : CarDetailsFields)
    (vin make model : String) (year : Int) : CreateOutcome :=
  let v := normVin vin
  let mk := normName make
  let md := normName model
  if v.length ≠ 17 then
    ⟨db, d, "Invalid VIN format. VIN must be exactly 17 characters. You provided: "
        ++ toString v.length ++ " characters."⟩
  else if year < 1900 ∨ 2030 < year then
    ⟨db, d, "Invalid year: " ++ toString year ++
        ". Please provide a valid year between 1900 and 2030."⟩
  else
    match get_car_by_vin db v with
    | some existing =>
      ⟨db, d, "A car with VIN " ++ v ++
          " already exists in our system. It is a " ++ toString existing.year
          ++ " " ++ existing.make ++ " " ++ existing.model ++ "."⟩
    | none =>
      match db_create_car db v mk md year with
      | (db2, none) =>
        ⟨db2, d, "Failed to create car profile. Please try again or contact support."⟩
      | (db2, some r) =>
        let d2 : CarDetailsFields := ⟨r.vin, r.make, r.model, toString r.year⟩
        ⟨db2, d2, "Perfect! I have created your car profile:\n" ++ get_car_str d2
            ++ "\n\nYour profile is now set up. How can I assist you with your "
            ++ toString year ++ " " ++ mk ++ " " ++ md ++ " today?"⟩

/-- The fixed department table of `AssistantFnc.transfer_to_department`. -/
def department_info : List (String × String) :=
  [("service", "Service Department - for maintenance, repairs, and appointments"),
   ("parts", "Parts Department - for ordering replacement parts and accessories"),
   ("billing", "Billing Department - for payment questions and account issues"),
   ("warranty", "Warranty Department - for warranty claims and coverage questions"),
   ("sales", "Sales Department - for new vehicle purchases and trade-ins")]

/-- `AssistantFnc.transfer_to_department`. -/
def transfer_to_department (department : String) : String :=
  let dept_lower := pyLower department
  match department_info.find? (fun p => p.1 == dept_lower) with
  | some p =>
    "I am transferring you to our " ++ p.2 ++
      ". Please hold while I connect you. A specialist will be with you shortly."
  | none =>
    "I am transferring you to our " ++ department ++
      " department. Please hold while I connect you."

/-! ### Ill-typed tool arguments and the `try/except` of `create_car`

The model may pass a tool argument of the wrong runtime type (e.g. an
integer where `vin: str` is expected).  `vin.strip()` then raises
`AttributeError`; the `except Exception` at the end of
`AssistantFnc.create_car` catches it and returns the generic failure
string, leaving the store and `_car_details` untouched. -/

/-- A Python runtime value as far as the handlers inspect it. -/
inductive PyVal where
  | str (s : String)
  | int (n : Int)
  deriving DecidableEq, Repr

/-- Using a `PyVal` where `str` is required (`.strip()` attribute access):
raises on a non-string. -/
def PyVal.asStr : PyVal → Except String String
  | .str s => .ok s
  | .int _ => .error "AttributeError: int object has no attribute strip"

/-- Using a `PyVal` in an integer comparison (`year < 1900`): raises on a
non-integer. -/
def PyVal.asInt : PyVal → Except String Int
  | .int n => .ok n
  | .str _ => .error "TypeError: ordering not supported between str and int"

/-- The body of the `try` block of `AssistantFnc.create_car`, with the
runtime type checks of each argument made explicit in the order the body
uses them. -/
def create_car_body (db : List Car) (d : CarDetailsFields)
    (vin make model year : PyVal) : Except String CreateOutcome := do
  let sv ← vin.asStr
  let sm ← make.asStr
  let sd ← model.asStr
  let y ← year.asInt
  pure (create_car db d sv sm sd y)

/-- `AssistantFnc.create_car` including the `except Exception` branch. -/
def create_car_wrapped (db : List Car) (d : CarDetailsFields)
    (vin make model year : PyVal) : CreateOutcome :=
  match create_car_body db d vin make model year with
  | .ok r => r
  | .error _ =>
    ⟨db, d, "I encountered an error creating your car profile. Please try again or contact support."⟩

/-! ### `AssistantFnc.reset_car_profile`

`api.py` line 157 declares the method as `def reset_car_profile():` —
without a `self` parameter.  A bound call `fnc.reset_car_profile()` passes
the instance as one positional argument to a zero-parameter function, so
Python raises `TypeError` before the body runs; the `_car_details` dict is
never cleared. -/

/-- Number of parameters in the `def reset_car_profile():` signature. -/
def reset_car_profile_param_count : Nat := 0

/-- Positional arguments a bound method call supplies (`self`). -/
def bound_call_arg_count : Nat := 1

/-- Calling `fnc.reset_car_profile()` on an instance whose `_car_details`
is `d`: the body (which would clear the dict) only runs when the supplied
arguments fit the signature. -/
def call_reset_car_profile (d : CarDetailsFields) :
    Except String CarDetailsFields :=
  if bound_call_arg_count ≤ reset_car_profile_param_count then
    .ok emptyCarDetails
  else
    .error "TypeError: reset_car_profile() takes 0 positional arguments but 1 was given"

/-! ## `agent.py::entrypoint` — the conversation loop

One utterance is handled by the `while True` loop at lines 77–127: each
iteration issues a model round, folds the streamed chunks into
`full_response` plus the accumulated tool-call list while flushing
content deltas to the synthesiser, appends the assistant turn (if any),
then either executes the tool calls in order — appending one `tool` turn
each — and continues, or breaks.  A raise anywhere in the `try` lands in
the `except` at line 129, which synthesises and appends the fixed apology
turn. -/

/-- One accumulated tool call (`tool_call_data` in `agent.py`). -/
structure ToolCallFrag where
  id : String
  name : String
  args : String
  deriving DecidableEq, Repr

/-- One streamed chunk delta (`chunk.delta`): optional content text plus
tool-call fragments.  A chunk whose `delta` is falsy is `⟨none, []⟩`. -/
structure Chunk where
  content : Option String
  toolCalls : List ToolCallFrag
  deriving DecidableEq, Repr

/-- One transcript entry (`llm.ChatMessage`): `tool_call_id` is only set
on `tool`-role turns. -/
structure Turn where
  role : String
  content : String
  toolCallId : Option String
  deriving DecidableEq, Repr

/-- The loop state over a stream: `full_response`, `tool_calls_from_llm`,
and the texts flushed to the synthesiser in order. -/
structure StreamAcc where
  full : String
  tools : List ToolCallFrag
  emits : List String
  deriving DecidableEq, Repr

/-- Body of `async for chunk in llm_stream` for one chunk: a truthy
content delta extends `full_response` and is synthesised; tool-call
deltas extend the accumulated list. -/
def streamStep (acc : StreamAcc) (c : Chunk) : StreamAcc :=
  let s := c.content.getD ""
  let acc1 := if s = "" then acc
    else { acc with full := acc.full ++ s, emits := acc.emits ++ [s] }
  if c.toolCalls.isEmpty then acc1
  else { acc1 with tools := acc1.tools ++ c.toolCalls }

/-- The `async for` loop over the whole stream. -/
def streamFold : StreamAcc → List Chunk → StreamAcc
  | acc, [] => acc
  | acc, c :: rest => streamFold (streamStep acc c) rest

/-- Consuming one full stream from empty accumulators. -/
def streamAccum (chunks : List Chunk) : StreamAcc :=
  streamFold ⟨"", [], []⟩ chunks

/-- What one model round produced: either the stream completed with these
chunks, or the call/stream raised after yielding a prefix of chunks. -/
inductive RoundResult where
  | success (chunks : List Chunk)
  | failure (seenChunks : List Chunk)
  deriving Repr

/-- The fixed apology of the `except` branch (line 131). -/
def apologyMessage : String :=
  "I apologize, but I encountered an error. Please try again."

/-- The `for tool_call_data in tool_calls_from_llm` loop: invoke each tool
in arrival order against the tool state `σ`, appending a `tool` turn whose
content is the stringified result and whose `tool_call_id` is the id of
the request it answers. -/
def execTools {σ : Type} (f : σ → ToolCallFrag → σ × String) :
    σ → List Turn → List ToolCallFrag → σ × List Turn
  | st, hist, [] => (st, hist)
  | st, hist, t :: ts =>
    let r := f st t
    execTools f r.1 (hist ++ [⟨"tool", r.2, some t.id⟩]) ts

/-- The `while True` loop of `agent.py` (lines 77–127) plus its `except`
branch (129–133).  `rounds` lists what each successive model round
produces; the returned triple is the tool state, the transcript and the
synthesised texts in order. -/
def runLoop {σ : Type} (f : σ → ToolCallFrag → σ × String) :
    σ → List Turn → List String → List RoundResult → σ × List Turn × List String
  | st, hist, em, [] => (st, hist, em)
  | st, hist, em, .failure seen :: _ =>
    let acc := streamAccum seen
    (st, hist ++ [⟨"assistant", apologyMessage, none⟩],
     em ++ acc.emits ++ [apologyMessage])
  | st, hist, em, .success chunks :: rest =>
    let acc := streamAccum chunks
    let h1 := hist ++
      (if acc.full = "" then [] else [⟨"assistant", acc.full, none⟩])
    if acc.tools.isEmpty then (st, h1, em ++ acc.emits)
    else
      let r := execTools f st h1 acc.tools
      runLoop f r.1 r.2 (em ++ acc.emits) rest

/-- Handling one finalized utterance (lines 70–133): append the `user`
turn, then run the model-round loop. -/
def handle_utterance {σ : Type} (f : σ → ToolCallFrag → σ × String)
    (st : σ) (hist : List Turn) (text : String) (rounds : List RoundResult) :
    σ × List Turn × List String :=
  runLoop f st (hist ++ [⟨"user", text, none⟩]) [] rounds

/-! ## `llm.py::GroqLLM.chat` — transcript → provider wire format

Lines 44–67 build, for every `ChatMessage` in the history, a dict with
exactly the keys `role` and `content`; roles other than
`assistant`/`user`/`system` fall back to `user`. -/

/-- One wire message sent to the provider (`msg_dict`). -/
structure WireMsg where
  role : String
  content : String
  deriving DecidableEq, Repr

/-- The role mapping of lines 54–61. -/
def groq_role (role : String) : String :=
  if role = "assistant" then "assistant"
  else if role = "user" then "user"
  else if role = "system" then "system"
  else "user"

/-- The conversion loop of lines 44–67. -/
def to_groq_messages (history : List Turn) : List WireMsg :=
  history.map (fun t => ⟨groq_role t.role, t.content⟩)

/-! ## Helper lemmas about the stream fold -/

/-- Concatenation of a list of strings in order. -/
def joinAll : List String → String
  | [] => ""
  | s :: rest => s ++ joinAll rest

theorem streamFold_content_only (texts : List String)
    (h : ∀ s ∈ texts, s ≠ "") :
    ∀ acc, streamFold acc (texts.map fun s => (⟨some s, []⟩ : Chunk))
      = ⟨acc.full ++ joinAll texts, acc.tools, acc.emits ++ texts⟩ := by
  induction texts with
  | nil => intro acc; simp [streamFold, joinAll]
  | cons s ts ih =>
    intro acc
    have hs : s ≠ "" := h s (List.mem_cons_self s ts)
    have hts : ∀ x ∈ ts, x ≠ "" := fun x hx => h x (List.mem_cons_of_mem s hx)
    simp only [List.map_cons, streamFold, streamStep, Option.getD_some,
      if_neg hs, List.isEmpty_nil, if_pos rfl]
    rw [ih hts]
    simp [joinAll, String.append_assoc, List.append_assoc]

theorem joinAll_ne_empty {texts : List String}
    (h : ∀ s ∈ texts, s ≠ "") (hne : texts ≠ []) : joinAll texts ≠ "" := by
  cases texts with
  | nil => exact absurd rfl hne
  | cons s ts =>
    have hs : s ≠ "" := h s (List.mem_cons_self s ts)
    intro hc
    rw [joinAll] at hc
    apply hs
    apply String.ext
    have := congrArg String.data hc
    rw [String.data_append] at this
    have h0 : s.data ++ (joinAll ts).data = ([] : List Char) := this
    exact List.append_eq_nil.mp h0 |>.1

/-! ## Claim theorems: the conversation loop -/

/-- Claim C1: in a completed model-response cycle that accumulated exactly
two tool-call fragments with distinct ids, the engine appends exactly two
`tool` turns — each carrying the `tool_call_id` of the request it answers,
in the order the fragments completed — and then issues another model round
(recurses into the remaining rounds) rather than terminating the cycle. -/
theorem c1_two_tool_calls_append_and_loop {σ : Type}
    (f : σ → ToolCallFrag → σ × String) (st : σ) (hist : List Turn)
    (em : List String) (chunks : List Chunk) (t1 t2 : ToolCallFrag)
    (rest : List RoundResult)
    (hacc : (streamAccum chunks).tools = [t1, t2]) (hid : t1.id ≠ t2.id) :
    runLoop f st hist em (.success chunks :: rest)
      = runLoop f (f (f st t1).1 t2).1
          ((hist ++ (if (streamAccum chunks).full = "" then []
              else [⟨"assistant", (streamAccum chunks).full, none⟩]))
            ++ [⟨"tool", (f st t1).2, some t1.id⟩,
                ⟨"tool", (f (f st t1).1 t2).2, some t2.id⟩])
          (em ++ (streamAccum chunks).emits) rest := by
  rw [runLoop]
  rw [hacc]
  simp [execTools, List.append_assoc]

theorem c1_witness :
    runLoop (fun (s : Unit) t => (s, t.name)) () [] []
        [.success [⟨some "Checking", [⟨"id1", "lookup_car", "x"⟩]⟩,
                   ⟨none, [⟨"id2", "get_car_details", "y"⟩]⟩]]
      = ((), [⟨"assistant", "Checking", none⟩,
              ⟨"tool", "lookup_car", some "id1"⟩,
              ⟨"tool", "get_car_details", some "id2"⟩], ["Checking"]) := by
  have h := c1_two_tool_calls_append_and_loop (fun (s : Unit) t => (s, t.name))
    () [] [] [⟨some "Checking", [⟨"id1", "lookup_car", "x"⟩]⟩,
              ⟨none, [⟨"id2", "get_car_details", "y"⟩]⟩]
    ⟨"id1", "lookup_car", "x"⟩ ⟨"id2", "get_car_details", "y"⟩ []
    (by decide) (by decide)
  rw [h]
  decide

/-- Claim C2: a streamed response consisting only of (non-empty) content
deltas appends exactly one `assistant` turn whose content is the
concatenation of the deltas in arrival order, emits exactly those deltas
for synthesis in order, and the cycle terminates (the result does not
depend on any further rounds, i.e. the engine is back awaiting the next
utterance). -/
theorem c2_content_only_single_assistant_turn {σ : Type}
    (f : σ → ToolCallFrag → σ × String) (st : σ) (hist : List Turn)
    (text : String) (texts : List String) (rest : List RoundResult)
    (hne : ∀ s ∈ texts, s ≠ "") (hnil : texts ≠ []) :
    handle_utterance f st hist text
        (.success (texts.map fun s => (⟨some s, []⟩ : Chunk)) :: rest)
      = (st, hist ++ [⟨"user", text, none⟩, ⟨"assistant", joinAll texts, none⟩],
         texts) := by
  unfold handle_utterance
  rw [runLoop]
  have hacc : streamAccum (texts.map fun s => (⟨some s, []⟩ : Chunk))
      = ⟨joinAll texts, [], texts⟩ := by
    unfold streamAccum
    rw [streamFold_content_only texts hne]
    simp
  rw [hacc]
  simp only [List.isEmpty_nil, if_pos rfl]
  rw [if_neg (joinAll_ne_empty hne hnil)]
  simp [List.append_assoc]

theorem c2_witness :
    handle_utterance (fun (s : Unit) t => (s, t.name)) () [] "hello"
        [.success [⟨some "Hi ", []⟩, ⟨some "there", []⟩]]
      = ((), [⟨"user", "hello", none⟩, ⟨"assistant", "Hi there", none⟩],
         ["Hi ", "there"]) := by
  have h := c2_content_only_single_assistant_turn
    (fun (s : Unit) t => (s, t.name)) () [] "hello" ["Hi ", "there"] []
    (by decide) (by decide)
  rw [show (["Hi ", "there"].map fun s => (⟨some s, []⟩ : Chunk))
      = [⟨some "Hi ", []⟩, ⟨some "there", []⟩] from rfl] at h
  rw [h]
  decide

/-- Claim C3: when the model call or its stream raises — at whatever point
of handling an utterance — the engine appends exactly one fixed apology
`assistant` turn, emits it for synthesis, and terminates the utterance
(no partial assistant turn from the deltas received before the failure is
appended, the user turn is retained, and later rounds are ignored). -/
theorem c3_provider_failure_apology {σ : Type}
    (f : σ → ToolCallFrag → σ × String) (st : σ) (hist : List Turn)
    (em : List String) (seen : List Chunk) (rest : List RoundResult)
    (text : String) :
    runLoop f st hist em (.failure seen :: rest)
      = (st, hist ++ [⟨"assistant", apologyMessage, none⟩],
         em ++ (streamAccum seen).emits ++ [apologyMessage])
    ∧ handle_utterance f st hist text (.failure seen :: rest)
      = (st, hist ++ [⟨"user", text, none⟩,
             ⟨"assistant", apologyMessage, none⟩],
         (streamAccum seen).emits ++ [apologyMessage]) := by
  constructor
  · rw [runLoop]
  · unfold handle_utterance
    rw [runLoop]
    simp [List.append_assoc]

/-- Claim C5 is refuted by `llm.py`: the conversion of lines 44–67 maps a
`tool`-role turn to a `user`-role wire message carrying only `role` and
`content` — the `tool_call_id` set by `agent.py` is never sent to the
provider. -/
theorem c5_tool_role_dropped :
    groq_role "tool" = "user"
    ∧ to_groq_messages [⟨"tool", "profile found", some "call_1"⟩]
      = [⟨"user", "profile found"⟩] := by
  constructor
  · rfl
  · rfl

/-! ## Claim theorems: tool failure handling -/

/-- The closure wiring `agent.py`'s `callable_functions["create_car"]`
into the tool-execution loop: invoke the (exception-guarded) handler
against the current store and `_car_details`, returning the new state and
the string result. -/
def create_tool_exec (vin make model year : PyVal) :
    (List Car × CarDetailsFields) → ToolCallFrag →
      (List Car × CarDetailsFields) × String :=
  fun s _ =>
    let r := create_car_wrapped s.1 s.2 vin make model year
    ((r.db, r.details), r.reply)

/-- Claim C4: when a tool invocation raises during execution (here:
`create_car` with an ill-typed argument), the handler's `except` branch
turns the exception into a descriptive error string, the store and the
loaded profile are untouched, the engine still appends the corresponding
`tool` turn carrying that string and the matching `tool_call_id`, and the
cycle loops back for another model round exactly as if the tool had
returned the string — nothing propagates. -/
theorem c4_tool_exception_becomes_string (db : List Car)
    (d : CarDetailsFields) (vin make model year : PyVal) (e : String)
    (hist : List Turn) (em : List String) (tc : ToolCallFrag)
    (rest : List RoundResult)
    (herr : create_car_body db d vin make model year = .error e) :
    create_car_wrapped db d vin make model year
      = ⟨db, d, "I encountered an error creating your car profile. Please try again or contact support."⟩
    ∧ runLoop (create_tool_exec vin make model year) (db, d) hist em
        (.success [⟨none, [tc]⟩] :: rest)
      = runLoop (create_tool_exec vin make model year) (db, d)
          (hist ++ [⟨"tool",
              "I encountered an error creating your car profile. Please try again or contact support.",
              some tc.id⟩])
          em rest := by
  have hw : create_car_wrapped db d vin make model year
      = ⟨db, d, "I encountered an error creating your car profile. Please try again or contact support."⟩ := by
    unfold create_car_wrapped
    rw [herr]
  refine ⟨hw, ?_⟩
  rw [runLoop]
  have hacc : streamAccum [(⟨none, [tc]⟩ : Chunk)] = ⟨"", [tc], []⟩ := by
    simp [streamAccum, streamFold, streamStep]
  rw [hacc]
  simp only [execTools, create_tool_exec, hw]
  simp

theorem c4_witness :
    create_car_wrapped [] emptyCarDetails (.int 0) (.str "Toyota")
        (.str "Camry") (.int 2005)
      = ⟨[], emptyCarDetails,
         "I encountered an error creating your car profile. Please try again or contact support."⟩ :=
  (c4_tool_exception_becomes_string [] emptyCarDetails (.int 0)
    (.str "Toyota") (.str "Camry") (.int 2005)
    "AttributeError: int object has no attribute strip"
    [] [] ⟨"id1", "create_car", "vin=0"⟩ [] rfl).1

/-! ## Claim theorems: the profile handlers -/

theorem get_car_by_vin_norm (db : List Car) (vin : String) :
    get_car_by_vin db (normVin vin) = get_car_by_vin db vin := by
  unfold get_car_by_vin
  rw [normVin_idem]

theorem str_length_pos_of_ne_empty {s : String} (h : s ≠ "") :
    0 < s.length := by
  have hd : s.data ≠ [] := by
    intro hdata
    apply h
    apply String.ext
    rw [hdata]
  show 0 < s.data.length
  exact List.length_pos.mpr hd

/-- Claim C6: for a valid fresh 17-character VIN (after normalisation), a
`create_car` with a year in range and non-degenerate make/model persists
exactly the normalised profile and loads it, and a subsequent
`lookup_car` with the same input VIN finds it and returns a profile with
identical vin, make, model and year. -/
theorem c6_create_then_lookup_roundtrip
    (db : List Car) (d : CarDetailsFields) (vin make model : String)
    (year : Int)
    (h17 : (normVin vin).length = 17)
    (hfresh : get_car_by_vin db vin = none)
    (hy1 : 1900 ≤ year) (hy2 : year ≤ 2030)
    (hmk : normName make ≠ "") (hmd : normName model ≠ "") :
    create_car db d vin make model year
      = ⟨db ++ [⟨normVin vin, normName make, normName model, year⟩],
         ⟨normVin vin, normName make, normName model, toString year⟩,
         "Perfect! I have created your car profile:\n"
           ++ get_car_str ⟨normVin vin, normName make, normName model, toString year⟩
           ++ "\n\nYour profile is now set up. How can I assist you with your "
           ++ toString year ++ " " ++ normName make ++ " " ++ normName model
           ++ " today?"⟩
    ∧ lookup_car (db ++ [⟨normVin vin, normName make, normName model, year⟩])
          ⟨normVin vin, normName make, normName model, toString year⟩ vin
      = ⟨⟨normVin vin, normName make, normName model, toString year⟩,
         "Great! I found your vehicle:\n"
           ++ get_car_str ⟨normVin vin, normName make, normName model, toString year⟩
           ++ "\n\nHow can I help you with your " ++ toString year ++ " "
           ++ normName make ++ " " ++ normName model ++ " today?", true⟩ := by
  have hfind : List.find? (fun c => c.vin == normVin vin) db = none := by
    simpa [get_car_by_vin] using hfresh
  have hn17 : ¬((normVin vin).length ≠ 17) := fun hne => hne h17
  have hfound2 : get_car_by_vin
      (db ++ [⟨normVin vin, normName make, normName model, year⟩])
      (normVin vin)
      = some ⟨normVin vin, normName make, normName model, year⟩ := by
    unfold get_car_by_vin
    rw [normVin_idem, List.find?_append, hfind]
    simp
  constructor
  · simp only [create_car]
    rw [if_neg hn17, if_neg (by omega)]
    rw [get_car_by_vin_norm, hfresh]
    simp only [db_create_car, normVin_idem, normName_idem]
    rw [hfind]
    simp only [Option.isSome_none, Bool.false_eq_true, if_false]
    rw [if_pos ⟨h17, str_length_pos_of_ne_empty hmk,
      str_length_pos_of_ne_empty hmd, hy1, hy2⟩]
  · simp only [lookup_car]
    rw [if_neg hn17, hfound2]

set_option maxRecDepth 8192 in
theorem c6_witness :
    (normVin " 1hgcm82633a004352").length = 17
    ∧ create_car [] emptyCarDetails " 1hgcm82633a004352" "toyota" "camry" 2005
      = ⟨[⟨"1HGCM82633A004352", "Toyota", "Camry", 2005⟩],
         ⟨"1HGCM82633A004352", "Toyota", "Camry", "2005"⟩,
         "Perfect! I have created your car profile:\n"
           ++ get_car_str ⟨"1HGCM82633A004352", "Toyota", "Camry", "2005"⟩
           ++ "\n\nYour profile is now set up. How can I assist you with your 2005 Toyota Camry today?"⟩ := by
  have h := c6_create_then_lookup_roundtrip [] emptyCarDetails
    " 1hgcm82633a004352" "toyota" "camry" 2005 (by decide) (by decide)
    (by decide) (by decide) (by decide) (by decide)
  refine ⟨by decide, ?_⟩
  rw [h.1]
  decide

/-! ## Store and session-state invariants -/

/-- Every row of the `cars` table has a 17-character VIN with no
lowercase letters (it is fixed by `upper`): rows are only ever inserted by
`db_create_car`, which normalises the key and is guarded by the schema
`CHECK(length(vin) = 17)`. -/
def DbOK (db : List Car) : Prop :=
  ∀ c ∈ db, c.vin.length = 17 ∧ pyUpper c.vin = c.vin

/-- The `_car_details` VIN is either empty (no profile loaded) or a
17-character upper-cased string. -/
def StateOK (d : CarDetailsFields) : Prop :=
  d.vin = "" ∨ (d.vin.length = 17 ∧ pyUpper d.vin = d.vin)

/-- Claim C7: a `create_car` whose (normalised) VIN is already stored
returns the string reporting the existing profile's year, make and model,
and changes neither the store nor the loaded profile. -/
theorem c7_duplicate_create_no_overwrite (db : List Car)
    (d : CarDetailsFields) (vin make model : String) (year : Int)
    (c : Car) (hdb : DbOK db)
    (hfound : get_car_by_vin db vin = some c)
    (hy1 : 1900 ≤ year) (hy2 : year ≤ 2030) :
    create_car db d vin make model year
      = ⟨db, d, "A car with VIN " ++ normVin vin
          ++ " already exists in our system. It is a " ++ toString c.year
          ++ " " ++ c.make ++ " " ++ c.model ++ "."⟩ := by
  have hfind : List.find? (fun x => x.vin == normVin vin) db = some c := by
    simpa [get_car_by_vin] using hfound
  have hpred := List.find?_some hfind
  have hcvin : c.vin = normVin vin := by
    simpa using hpred
  have hmem := List.mem_of_find?_eq_some hfind
  have h17 : (normVin vin).length = 17 := by
    rw [← hcvin]
    exact (hdb c hmem).1
  simp only [create_car]
  rw [if_neg (fun hne => hne h17), if_neg (by omega)]
  rw [get_car_by_vin_norm, hfound]

theorem c7_witness :
    create_car [⟨"1HGCM82633A004352", "Toyota", "Camry", 2005⟩]
        emptyCarDetails "1hgcm82633a004352" "honda" "civic" 2010
      = ⟨[⟨"1HGCM82633A004352", "Toyota", "Camry", 2005⟩], emptyCarDetails,
         "A car with VIN 1HGCM82633A004352 already exists in our system. It is a 2005 Toyota Camry."⟩ := by
  have h := c7_duplicate_create_no_overwrite
    [⟨"1HGCM82633A004352", "Toyota", "Camry", 2005⟩] emptyCarDetails
    "1hgcm82633a004352" "honda" "civic" 2010
    ⟨"1HGCM82633A004352", "Toyota", "Camry", 2005⟩
    (by simp [DbOK]; decide) (by decide) (by decide) (by decide)
  rw [h]
  decide

/-- Claim C8: a `lookup_car` whose normalised VIN is not 17 characters
long returns the length-mismatch string without querying the store and
without touching the loaded profile, and a lookup that reaches the store
but finds nothing also leaves the profile untouched — only a successful
lookup sets it. -/
theorem c8_short_vin_rejected_before_store :
    (∀ (db : List Car) (d : CarDetailsFields) (vin : String),
      (normVin vin).length ≠ 17 →
      lookup_car db d vin
        = ⟨d, "Invalid VIN format. VIN should be 17 characters long. You provided: "
            ++ toString (normVin vin).length ++ " characters.", false⟩)
    ∧ (∀ (db : List Car) (d : CarDetailsFields) (vin : String),
      (normVin vin).length = 17 → get_car_by_vin db vin = none →
      lookup_car db d vin
        = ⟨d, "No car found with VIN: " ++ normVin vin
            ++ ". Would you like me to help you create a new profile?", true⟩) := by
  constructor
  · intro db d vin h
    simp only [lookup_car]
    rw [if_pos h]
  · intro db d vin h17 hnone
    simp only [lookup_car]
    rw [if_neg (fun hne => hne h17), get_car_by_vin_norm, hnone]

theorem c8_witness :
    lookup_car [] emptyCarDetails "short"
      = ⟨emptyCarDetails,
         "Invalid VIN format. VIN should be 17 characters long. You provided: 5 characters.",
         false⟩ := by
  have h := c8_short_vin_rejected_before_store.1 [] emptyCarDetails "short"
    (by decide)
  rw [h]
  decide

/-- Claim C9 concerns `AssistantFnc.reset_car_profile`, which the spec
says clears the loaded profile.  The code declares it without `self`
(`api.py` line 157), so every bound call raises `TypeError` before the
body runs and the profile is never cleared: the code contradicts the
method's own docstring and the spec. -/
theorem c9_reset_raises_type_error (d : CarDetailsFields) :
    call_reset_car_profile d
      = .error "TypeError: reset_car_profile() takes 0 positional arguments but 1 was given" := rfl

/-! ## Claim C10: the VIN invariant across the assistant operations -/

/-- One invocation of a profile tool handler against the session state. -/
inductive AOp where
  | lookup (vin : String)
  | create (vin make model : String) (year : Int)
  | details
  | transfer (dept : String)

/-- Effect of one handler invocation on `(store, _car_details)`. -/
def stepOp : List Car × CarDetailsFields → AOp → List Car × CarDetailsFields
  | (db, d), .lookup vin => (db, (lookup_car db d vin).details)
  | (db, d), .create vin make model year =>
    let r := create_car db d vin make model year
    (r.db, r.details)
  | s, .details => s
  | s, .transfer _ => s

theorem lookup_car_details_cases (db : List Car) (d : CarDetailsFields)
    (vin : String) :
    (lookup_car db d vin).details = d
    ∨ ∃ c, get_car_by_vin db vin = some c
        ∧ (lookup_car db d vin).details
            = ⟨c.vin, c.make, c.model, toString c.year⟩ := by
  simp only [lookup_car]
  by_cases h : (normVin vin).length ≠ 17
  · rw [if_pos h]
    exact Or.inl rfl
  · rw [if_neg h, get_car_by_vin_norm]
    cases hfind : get_car_by_vin db vin with
    | none => exact Or.inl rfl
    | some c => exact Or.inr ⟨c, rfl, rfl⟩

theorem create_car_state_cases (db : List Car) (d : CarDetailsFields)
    (vin make model : String) (year : Int) :
    ((create_car db d vin make model year).db = db
      ∧ (create_car db d vin make model year).details = d)
    ∨ ((normVin vin).length = 17
      ∧ (create_car db d vin make model year).db
          = db ++ [⟨normVin vin, normName make, normName model, year⟩]
      ∧ (create_car db d vin make model year).details
          = ⟨normVin vin, normName make, normName model, toString year⟩) := by
  simp only [create_car]
  by_cases h17 : (normVin vin).length ≠ 17
  · rw [if_pos h17]
    exact Or.inl ⟨rfl, rfl⟩
  · rw [if_neg h17]
    by_cases hy : year < 1900 ∨ 2030 < year
    · rw [if_pos hy]
      exact Or.inl ⟨rfl, rfl⟩
    · rw [if_neg hy]
      cases hfind : get_car_by_vin db (normVin vin) with
      | some c => exact Or.inl ⟨rfl, rfl⟩
      | none =>
        simp only [db_create_car, normVin_idem, normName_idem]
        by_cases hdup : (List.find? (fun c => c.vin == normVin vin) db).isSome
          = true
        · rw [if_pos hdup]
          exact Or.inl ⟨rfl, rfl⟩
        · rw [if_neg hdup]
          by_cases hc : (normVin vin).length = 17
              ∧ 0 < (normName make).length ∧ 0 < (normName model).length
              ∧ 1900 ≤ year ∧ year ≤ 2030
          · rw [if_pos hc]
            exact Or.inr ⟨hc.1, rfl, rfl⟩
          · rw [if_neg hc]
            exact Or.inl ⟨rfl, rfl⟩

/-- Claim C10: every handler invocation preserves the invariant that the
store only holds 17-character upper-cased VINs and the loaded-profile VIN
is empty or a 17-character upper-cased string; consequently `has_car` is
`true` exactly when a validated profile was loaded, and its VIN then
satisfies the 17-character constraint. -/
theorem c10_vin_invariant (db : List Car) (d : CarDetailsFields) (op : AOp)
    (hdb : DbOK db) (hd : StateOK d) :
    DbOK (stepOp (db, d) op).1 ∧ StateOK (stepOp (db, d) op).2
    ∧ (has_car (stepOp (db, d) op).2 = true →
        (stepOp (db, d) op).2.vin.length = 17
        ∧ pyUpper (stepOp (db, d) op).2.vin = (stepOp (db, d) op).2.vin) := by
  have main : DbOK (stepOp (db, d) op).1 ∧ StateOK (stepOp (db, d) op).2 := by
    cases op with
    | details => exact ⟨hdb, hd⟩
    | transfer dept => exact ⟨hdb, hd⟩
    | lookup vin =>
      refine ⟨hdb, ?_⟩
      show StateOK (lookup_car db d vin).details
      rcases lookup_car_details_cases db d vin with h | ⟨c, hc, h⟩
      · rw [h]
        exact hd
      · have hfind : List.find? (fun x => x.vin == normVin vin) db = some c := by
          simpa [get_car_by_vin] using hc
        have hmem := List.mem_of_find?_eq_some hfind
        rw [h]
        exact Or.inr ⟨(hdb c hmem).1, (hdb c hmem).2⟩
    | create vin make model year =>
      rcases create_car_state_cases db d vin make model year with
        ⟨h1, h2⟩ | ⟨h17, h1, h2⟩
      · show DbOK (create_car db d vin make model year).db
          ∧ StateOK (create_car db d vin make model year).details
        rw [h1, h2]
        exact ⟨hdb, hd⟩
      · show DbOK (create_car db d vin make model year).db
          ∧ StateOK (create_car db d vin make model year).details
        rw [h1, h2]
        constructor
        · intro c hcmem
          rcases List.mem_append.mp hcmem with hmem | hmem
          · exact hdb c hmem
          · have hcar : c = ⟨normVin vin, normName make, normName model, year⟩ := by
              simpa using hmem
            rw [hcar]
            exact ⟨h17, pyUpper_normVin vin⟩
        · exact Or.inr ⟨h17, pyUpper_normVin vin⟩
  refine ⟨main.1, main.2, fun hcar => ?_⟩
  rcases main.2 with h0 | h1
  · exfalso
    have : has_car (stepOp (db, d) op).2 = false := by
      simp [has_car, h0]
    rw [this] at hcar
    exact Bool.false_ne_true hcar
  · exact h1

theorem c10_witness :
    DbOK (stepOp ([], emptyCarDetails)
        (.create "1hgcm82633a004352" "toyota" "camry" 2005)).1
    ∧ StateOK (stepOp ([], emptyCarDetails)
        (.create "1hgcm82633a004352" "toyota" "camry" 2005)).2
    ∧ (has_car (stepOp ([], emptyCarDetails)
          (.create "1hgcm82633a004352" "toyota" "camry" 2005)).2 = true →
        (stepOp ([], emptyCarDetails)
          (.create "1hgcm82633a004352" "toyota" "camry" 2005)).2.vin.length = 17
        ∧ pyUpper (stepOp ([], emptyCarDetails)
            (.create "1hgcm82633a004352" "toyota" "camry" 2005)).2.vin
          = (stepOp ([], emptyCarDetails)
              (.create "1hgcm82633a004352" "toyota" "camry" 2005)).2.vin) :=
  c10_vin_invariant [] emptyCarDetails
    (.create "1hgcm82633a004352" "toyota" "camry" 2005)
    (by simp [DbOK]) (Or.inl rfl)

end CallCentre
